import Mathlib

/-!
Shallow embedding of `src/index.js` — the "work-timer" MCP server's timer
registry and its seven tool handlers, together with proofs checking the
natural-language specification against this code.

Modelling choices:

* Timestamps (`new Date()` / `Date.now()`) are epoch milliseconds, modelled
  as `Nat`.  Each handler takes the instant(s) at which the source reads the
  clock as an explicit `now : Nat` parameter; a handler that captures the
  clock once receives exactly one such parameter.
* The store `const timers = {}` is a plain JavaScript object.  Its own
  properties are modelled as an association list in property-creation order
  (`Registry`).  Two JavaScript semantics of plain objects are modelled
  faithfully because the handlers depend on them:
  1. property reads (`timers[name]`) consult the prototype chain, so the
     pattern-valid label strings "constructor" and "__proto__" produce a
     truthy inherited value even when no such own property exists
     (`jsGet`); reading `.startTime` of such a value yields `undefined`,
     and calling `.toLocaleTimeString()` on `undefined` throws a
     `TypeError` (`JsException.typeError`);
  2. `Object.keys` enumerates own properties with array-index keys first in
     ascending numeric order, followed by the remaining string keys in
     property-creation order (`objKeys` / `orderedEntries`).
* A handler's observable behaviour is an outcome (returned text, or a thrown
  exception) paired with the post-state of the store.
* `Date.prototype.toLocaleTimeString` is an external, locale-dependent
  rendering of a timestamp; it is modelled as the decimal rendering of the
  epoch milliseconds.  No theorem depends on its exact text, only on which
  timestamp is rendered.
-/

namespace WorkTimer

/-- The value stored under one own property of `timers`: either a proper
`{ startTime: <Date> }` record created by the handlers, or — after
`rename_timer` copies an inherited `Object.prototype` member (see
`rename_timer`) — a function/object that has no `startTime` field. -/
inductive TimerObj where
  | mk (startTime : Nat)
  | protoFun
deriving DecidableEq

/-- Own properties of the `timers` object, in property-creation order. -/
abbrev Registry := List (String × TimerObj)

/-- A thrown JavaScript exception.  The only exception the handlers can
throw is the `TypeError` from calling `.toLocaleTimeString()` on
`undefined`. -/
inductive JsException where
  | typeError
deriving DecidableEq

/-- Result of one handler invocation: the returned text content, or a
thrown exception. -/
inductive JsOutcome where
  | ret (text : String)
  | exn (e : JsException)
deriving DecidableEq

/-- The two own properties of `Object.prototype` whose names match the
label pattern `^[a-z0-9_-]{1,30}$` (all the others contain an uppercase
letter).  A read of `timers[name]` for these names finds a truthy inherited
value even when the registry has no such own key. -/
def isProtoName (s : String) : Bool :=
  s == "constructor" || s == "__proto__"

/-- Result of the property read `timers[name]`. -/
inductive JsVal where
  | own (v : TimerObj)
  | inherited
  | undefVal
deriving DecidableEq

/-- `timers[name]`: the own property if present, otherwise the inherited
`Object.prototype` member for "constructor" / "__proto__", otherwise
`undefined`. -/
def jsGet (r : Registry) (name : String) : JsVal :=
  match r.lookup name with
  | some v => .own v
  | none => if isProtoName name then .inherited else .undefVal

/-- JavaScript truthiness of a property read: every object/function is
truthy, `undefined` is falsy. -/
def truthy : JsVal → Bool
  | .undefVal => false
  | _ => true

/-- Reading `.startTime` of the value: `some` for a proper timer record,
`none` (i.e. `undefined`) for the inherited prototype members, which have
no `startTime` field. -/
def startTimeOf : JsVal → Option Nat
  | .own (.mk t) => some t
  | _ => none

/-- Assignment `timers[name] = v`: overwrite an existing own property in
place, otherwise create a new own property (at the end of the creation
order).  Every assignment in the source is guarded by a falsy check of
`timers[name]`, so it is never executed for the two prototype names. -/
def jsSet (r : Registry) (name : String) (v : TimerObj) : Registry :=
  if (r.lookup name).isSome then
    r.map (fun p => if p.1 = name then (name, v) else p)
  else
    r ++ [(name, v)]

/-- `delete timers[name]`: removes the own property if present; deleting a
name that is only inherited leaves the object unchanged. -/
def jsDelete (r : Registry) (name : String) : Registry :=
  r.filter (fun p => p.1 != name)

/-- A decimal digit. -/
def isDigitChar (c : Char) : Bool :=
  48 ≤ c.toNat && c.toNat ≤ 57

/-- The numeric value of a list of decimal digits (a structural
reimplementation of `String.toNat?` evaluation, kept kernel-reducible). -/
def decimalValue (l : List Char) : Nat :=
  l.foldl (fun n c => n * 10 + (c.toNat - 48)) 0

/-- A canonical array index in the sense of JavaScript property
enumeration: the string is the canonical decimal rendering of an integer
below 2^32 - 1.  Such keys are enumerated first, in ascending numeric
order. -/
def isArrayIndex (s : String) : Option Nat :=
  if s.data ≠ [] ∧ s.data.all isDigitChar then
    let n := decimalValue s.data
    if toString n = s ∧ n < 4294967295 then some n else none
  else none

/-- Insert into a list sorted by the numeric index (ascending). -/
def insertByIdx {α : Type} (x : Nat × α) : List (Nat × α) → List (Nat × α)
  | [] => [x]
  | y :: ys => if x.1 ≤ y.1 then x :: y :: ys else y :: insertByIdx x ys

/-- Insertion sort by the numeric index (ascending). -/
def sortByIdx {α : Type} : List (Nat × α) → List (Nat × α)
  | [] => []
  | x :: xs => insertByIdx x (sortByIdx xs)

/-- The own entries of the registry in JavaScript enumeration order:
array-index keys in ascending numeric order first, then the remaining
keys in property-creation order. -/
def orderedEntries (r : Registry) : Registry :=
  (sortByIdx (r.filterMap
      (fun p => (isArrayIndex p.1).map (fun n => (n, p))))).map Prod.snd
  ++ r.filter (fun p => (isArrayIndex p.1).isNone)

/-- `Object.keys(timers)`. -/
def objKeys (r : Registry) : List String :=
  (orderedEntries r).map Prod.fst

/-- `runningCount()` from the source: `Object.keys(timers).length`. -/
def runningCount (r : Registry) : Nat :=
  (objKeys r).length

/-- The label regular expression `^[a-z0-9_-]+$` on one character. -/
def isLabelChar (c : Char) : Bool :=
  (97 ≤ c.toNat && c.toNat ≤ 122) || (48 ≤ c.toNat && c.toNat ≤ 57)
    || c == '_' || c == '-'

/-- The boundary's label constraint (`labelSchema` in the source):
`z.string().max(30).regex(/^[a-z0-9_-]+$/)`, i.e. 1 to 30 characters,
each a lowercase letter, digit, hyphen or underscore. -/
def validLabel (s : String) : Bool :=
  decide (1 ≤ s.length) && decide (s.length ≤ 30) && s.data.all isLabelChar

/-- `resolveLabel` from the source: `label || "default"` — an absent label
or the (falsy) empty string becomes the literal "default". -/
def resolveLabel : Option String → String
  | none => "default"
  | some s => if s = "" then "default" else s

/-- `Date.prototype.toLocaleTimeString`, modelled as the decimal rendering
of the epoch milliseconds (see the module docstring). -/
def toLocaleTimeString (t : Nat) : String :=
  toString t

/-- `formatElapsed` from the source.  The argument is a millisecond
duration; JavaScript `Math.floor` of a real quotient is integer floor
division (`Int.fdiv`), and the JavaScript remainder operator `%` keeps the
sign of the dividend (`Int.tmod`). -/
def formatElapsed (ms : Int) : String :=
  let totalSeconds := Int.fdiv ms 1000
  let hours := Int.fdiv totalSeconds 3600
  let minutes := Int.fdiv (Int.tmod totalSeconds 3600) 60
  let seconds := Int.tmod totalSeconds 60
  let parts :=
    (if hours > 0 then [toString hours ++ "h"] else [])
    ++ (if minutes > 0 then [toString minutes ++ "m"] else [])
    ++ [toString seconds ++ "s"]
  String.intercalate " " parts

/-- `formatElapsed` applied to a JavaScript subtraction whose right operand
may be `undefined`: `anything - undefined` is `NaN`; inside
`formatElapsed`, `NaN` fails every `> 0` comparison and renders as "NaN",
so the result is "NaNs". -/
def formatElapsedJs : Option Int → String
  | some ms => formatElapsed ms
  | none => "NaNs"

/-- The `start_timer` tool handler.  `now` is the instant captured by
`new Date()`. -/
def start_timer (now : Nat) (label : Option String) (r : Registry) :
    JsOutcome × Registry :=
  let name := resolveLabel label
  let v := jsGet r name
  if truthy v then
    match startTimeOf v with
    | some t =>
        (.ret ("Timer \"" ++ name ++ "\" is already running (started at "
          ++ toLocaleTimeString t ++ ")."), r)
    | none =>
        -- timers[name] is truthy (an inherited prototype member), but its
        -- .startTime is undefined, so .toLocaleTimeString() throws.
        (.exn .typeError, r)
  else
    let r1 := jsSet r name (.mk now)
    let base := "Timer \"" ++ name ++ "\" started at "
      ++ toLocaleTimeString now ++ "."
    if runningCount r1 ≥ 3 then
      let names := String.intercalate ", "
        ((objKeys r1).map (fun n => "\"" ++ n ++ "\""))
      (.ret (base ++ "\n\nHeads up: you now have "
        ++ toString (runningCount r1) ++ " timers running (" ++ names
        ++ "). Did you forget to stop one?"), r1)
    else
      (.ret base, r1)

/-- The `current_timer` tool handler.  `now` is the instant read by
`Date.now()`. -/
def current_timer (now : Nat) (label : Option String) (r : Registry) :
    JsOutcome × Registry :=
  let name := resolveLabel label
  let v := jsGet r name
  if truthy v = false then
    (.ret ("No timer named \"" ++ name ++ "\" is running."), r)
  else
    match startTimeOf v with
    | some t =>
        (.ret ("Timer \"" ++ name ++ "\" is running.\nStarted:  "
          ++ toLocaleTimeString t ++ "\nElapsed:  "
          ++ formatElapsed ((now : Int) - (t : Int))), r)
    | none =>
        -- the elapsed value would be "NaNs", but the message build reads
        -- .toLocaleTimeString of the undefined .startTime and throws
        (.exn .typeError, r)

/-- The `stop_timer` tool handler.  `now` is the instant captured by
`const endTime = new Date()`. -/
def stop_timer (now : Nat) (label : Option String) (r : Registry) :
    JsOutcome × Registry :=
  let name := resolveLabel label
  let v := jsGet r name
  if truthy v = false then
    (.ret ("No timer named \"" ++ name ++ "\" is running."), r)
  else
    -- `delete timers[name]` runs before the message template is built,
    -- so the deletion happens even on the path that then throws.
    let r1 := jsDelete r name
    match startTimeOf v with
    | some t =>
        (.ret ("Timer \"" ++ name ++ "\" stopped.\nStarted:  "
          ++ toLocaleTimeString t ++ "\nStopped:  "
          ++ toLocaleTimeString now ++ "\nElapsed:  "
          ++ formatElapsed ((now : Int) - (t : Int))), r1)
    | none => (.exn .typeError, r1)

/-- One line of the `list_timers` output, for the entry of one own key.
A `protoFun` entry (no `startTime` field) makes the line template throw. -/
def listLine (now : Nat) (p : String × TimerObj) : Except JsException String :=
  match p.2 with
  | .mk t =>
      .ok ("- \"" ++ p.1 ++ "\"  started " ++ toLocaleTimeString t
        ++ "  (" ++ formatElapsed ((now : Int) - (t : Int)) ++ ")")
  | .protoFun => .error .typeError

/-- `names.map(...)` over the listing lines: the lines in order, stopped at
the first thrown exception. -/
def mapLines (now : Nat) : List (String × TimerObj) →
    Except JsException (List String)
  | [] => .ok []
  | p :: ps =>
    match listLine now p with
    | .error e => .error e
    | .ok s =>
      match mapLines now ps with
      | .error e => .error e
      | .ok ss => .ok (s :: ss)

/-- The `list_timers` tool handler.  `now` is the single snapshot taken by
`const now = Date.now()` before the lines are rendered. -/
def list_timers (now : Nat) (r : Registry) : JsOutcome × Registry :=
  let entries := orderedEntries r
  if entries.length = 0 then
    (.ret "No timers are running.", r)
  else
    match mapLines now entries with
    | .ok lines =>
        (.ret ("Running timers (" ++ toString entries.length ++ "):\n"
          ++ String.intercalate "\n" lines), r)
    | .error e => (.exn e, r)

/-- One line of the `stop_all_timers` summary.  The source reads
`timers[name].startTime.toLocaleTimeString()` before deleting the entry, so
a `protoFun` entry throws before its own deletion. -/
def stopAllLine (now : Nat) (p : String × TimerObj) :
    Except JsException String :=
  match p.2 with
  | .mk t =>
      .ok ("- \"" ++ p.1 ++ "\"  " ++ toLocaleTimeString t ++ " → "
        ++ toLocaleTimeString now ++ "  ("
        ++ formatElapsed ((now : Int) - (t : Int)) ++ ")")
  | .protoFun => .error .typeError

/-- The loop body of `stop_all_timers`: for each snapshotted own key, build
its summary line and delete the entry; an exception aborts the remaining
iterations (entries already visited stay deleted). -/
def stopAllGo (now : Nat) :
    List (String × TimerObj) → Registry →
    Except JsException (List String) × Registry
  | [], r => (.ok [], r)
  | p :: ps, r =>
    match stopAllLine now p with
    | .error e => (.error e, r)
    | .ok line =>
      let r1 := jsDelete r p.1
      match stopAllGo now ps r1 with
      | (.ok lines, r2) => (.ok (line :: lines), r2)
      | (.error e, r2) => (.error e, r2)

/-- The `stop_all_timers` tool handler.  `now` is the single end-timestamp
snapshot `const endTime = new Date()`. -/
def stop_all_timers (now : Nat) (r : Registry) : JsOutcome × Registry :=
  let entries := orderedEntries r
  if entries.length = 0 then
    (.ret "No timers are running.", r)
  else
    match stopAllGo now entries r with
    | (.ok lines, r1) =>
        (.ret ("Stopped " ++ toString lines.length ++ " timer(s):\n"
          ++ String.intercalate "\n" lines), r1)
    | (.error e, r1) => (.exn e, r1)

/-- The `rename_timer` tool handler.  (`from` is a Lean keyword, hence the
argument name `fromLabel`.) -/
def rename_timer (fromLabel : Option String) (toLabel : String)
    (r : Registry) : JsOutcome × Registry :=
  let oldName := resolveLabel fromLabel
  if truthy (jsGet r oldName) = false then
    (.ret ("No timer named \"" ++ oldName ++ "\" is running."), r)
  else if truthy (jsGet r toLabel) then
    (.ret ("A timer named \"" ++ toLabel
      ++ "\" is already running. Stop it first or choose a different name."),
      r)
  else
    -- timers[to] = timers[oldName]; delete timers[oldName]
    -- The looked-up value is the own timer record, or — when oldName is
    -- "constructor"/"__proto__" with no own entry — the inherited
    -- prototype member, which is then stored under the new key.
    let v : TimerObj :=
      match jsGet r oldName with
      | .own w => w
      | _ => .protoFun
    let r1 := jsDelete (jsSet r toLabel v) oldName
    (.ret ("Timer renamed from \"" ++ oldName ++ "\" to \"" ++ toLabel
      ++ "\"."), r1)

/-- The `switch_timer` tool handler.  The single `const now = new Date()`
is the `now` parameter, used both for the stop half's elapsed computation
and as the new timer's start time. -/
def switch_timer (now : Nat) (stopLabel : Option String)
    (startLabel : String) (r : Registry) : JsOutcome × Registry :=
  let stopName := resolveLabel stopLabel
  let v := jsGet r stopName
  let summary1 :=
    if truthy v then
      "Stopped \"" ++ stopName ++ "\" ("
        ++ formatElapsedJs ((startTimeOf v).map
              (fun t => (now : Int) - (t : Int))) ++ ").\n"
    else
      "No timer named \"" ++ stopName ++ "\" was running.\n"
  let r1 := if truthy v then jsDelete r stopName else r
  let w := jsGet r1 startLabel
  if truthy w then
    match startTimeOf w with
    | some t =>
        (.ret (summary1 ++ "Timer \"" ++ startLabel
          ++ "\" is already running (started at " ++ toLocaleTimeString t
          ++ ")."), r1)
    | none => (.exn .typeError, r1)
  else
    let r2 := jsSet r1 startLabel (.mk now)
    (.ret (summary1 ++ "Started \"" ++ startLabel ++ "\" at "
      ++ toLocaleTimeString now ++ "."), r2)

/-- Well-formedness of a registry state: own keys are distinct (a
JavaScript object cannot hold two properties of the same name) and every
entry is a proper timer record whose key satisfies the boundary's label
constraint and is not one of the two inherited prototype names. -/
def goodEntry : String × TimerObj → Bool
  | (k, .mk _) => validLabel k && !isProtoName k
  | (_, .protoFun) => false

/-- Well-formed registry states (see `goodEntry`). -/
def wf (r : Registry) : Prop :=
  (r.map Prod.fst).Nodup ∧ ∀ p ∈ r, goodEntry p = true

instance (r : Registry) : Decidable (wf r) :=
  inferInstanceAs (Decidable (_ ∧ _))

/-! ### Association-list lemmas -/

theorem lookup_eq_none_iff (r : Registry) (k : String) :
    r.lookup k = none ↔ k ∉ r.map Prod.fst := by
  induction r with
  | nil => simp
  | cons p ps ih =>
    obtain ⟨a, b⟩ := p
    by_cases h : k = a
    · subst h
      simp [List.lookup_cons]
    · have hb : (k == a) = false := beq_false_of_ne h
      simp [List.lookup_cons, hb, ih, h]

theorem mem_keys_of_lookup_some {r : Registry} {k : String} {v : TimerObj}
    (h : r.lookup k = some v) : k ∈ r.map Prod.fst := by
  by_contra hmem
  rw [← lookup_eq_none_iff] at hmem
  rw [hmem] at h
  cases h

theorem lookup_isSome_of_mem_keys {r : Registry} {k : String}
    (h : k ∈ r.map Prod.fst) : (r.lookup k).isSome = true := by
  cases hl : r.lookup k
  · rw [lookup_eq_none_iff] at hl
    exact absurd h hl
  · rfl

theorem lookup_append_left_none {r1 r2 : Registry} {k : String}
    (h : r1.lookup k = none) : (r1 ++ r2).lookup k = r2.lookup k := by
  induction r1 with
  | nil => simp
  | cons p ps ih =>
    obtain ⟨a, b⟩ := p
    rw [List.cons_append, List.lookup_cons]
    rw [List.lookup_cons] at h
    cases hb : (k == a) with
    | true => rw [hb] at h; cases h
    | false => rw [hb] at h; exact ih h

theorem lookup_filter_self (r : Registry) (k : String) :
    (r.filter (fun p => p.1 != k)).lookup k = none := by
  rw [lookup_eq_none_iff]
  intro hmem
  obtain ⟨p, hp, hk⟩ := List.mem_map.mp hmem
  have := List.of_mem_filter hp
  rw [hk] at this
  simp at this

theorem lookup_singleton_self (k : String) (v : TimerObj) :
    ([(k, v)] : Registry).lookup k = some v := by
  simp [List.lookup_cons]

theorem lookup_singleton_ne {k a : String} (v : TimerObj) (h : k ≠ a) :
    ([(a, v)] : Registry).lookup k = none := by
  simp [List.lookup_cons, beq_false_of_ne h]

theorem lookup_filter_of_ne {r : Registry} {k a : String} (h : k ≠ a) :
    (r.filter (fun p => p.1 != a)).lookup k = r.lookup k := by
  induction r with
  | nil => simp
  | cons p ps ih =>
    obtain ⟨c, d⟩ := p
    by_cases hc : c = a
    · subst hc
      have hb : (k == c) = false := beq_false_of_ne h
      simp [List.filter_cons, List.lookup_cons, hb, ih]
    · have ht : ((c, d).1 != a) = true := by simpa using hc
      cases hb : (k == c) <;>
        simp [List.filter_cons, ht, List.lookup_cons, hb, ih]

/-! ### Enumeration-order lemmas -/

theorem insertByIdx_perm {α : Type} (x : Nat × α) (l : List (Nat × α)) :
    List.Perm (insertByIdx x l) (x :: l) := by
  induction l with
  | nil => exact List.Perm.refl _
  | cons y ys ih =>
    rw [insertByIdx]
    by_cases h : x.1 ≤ y.1
    · rw [if_pos h]
    · rw [if_neg h]
      exact (ih.cons y).trans (List.Perm.swap x y ys)

theorem sortByIdx_perm {α : Type} (l : List (Nat × α)) :
    List.Perm (sortByIdx l) l := by
  induction l with
  | nil => exact List.Perm.refl _
  | cons x xs ih =>
    exact (insertByIdx_perm x (sortByIdx xs)).trans (ih.cons x)

theorem filterMap_idx_snd (r : Registry) :
    (r.filterMap (fun p => (isArrayIndex p.1).map (fun n => (n, p)))).map
        Prod.snd
      = r.filter (fun p => (isArrayIndex p.1).isSome) := by
  induction r with
  | nil => rfl
  | cons p ps ih =>
    cases h : isArrayIndex p.1 <;>
      simp [List.filterMap_cons, List.filter_cons, h, ih]

theorem orderedEntries_perm (r : Registry) :
    List.Perm (orderedEntries r) r := by
  unfold orderedEntries
  have h1 := (sortByIdx_perm (r.filterMap
    (fun p => (isArrayIndex p.1).map (fun n => (n, p))))).map Prod.snd
  rw [filterMap_idx_snd] at h1
  have h3 : r.filter (fun p => (isArrayIndex p.1).isNone)
      = r.filter (fun p => !(isArrayIndex p.1).isSome) := by
    apply List.filter_congr
    intro p _
    cases isArrayIndex p.1 <;> rfl
  rw [h3]
  exact (h1.append (List.Perm.refl _)).trans
    (List.filter_append_perm (fun p => (isArrayIndex p.1).isSome) r)

theorem orderedEntries_length (r : Registry) :
    (orderedEntries r).length = r.length :=
  (orderedEntries_perm r).length_eq

theorem runningCount_eq (r : Registry) : runningCount r = r.length := by
  unfold runningCount objKeys
  rw [List.length_map, orderedEntries_length]

theorem objKeys_perm_keys (r : Registry) :
    List.Perm (objKeys r) (r.map Prod.fst) :=
  (orderedEntries_perm r).map Prod.fst

theorem orderedEntries_eq_self {r : Registry}
    (h : ∀ p ∈ r, isArrayIndex p.1 = none) : orderedEntries r = r := by
  unfold orderedEntries
  have h1 : r.filterMap (fun p => (isArrayIndex p.1).map (fun n => (n, p)))
      = [] := by
    rw [List.filterMap_eq_nil_iff]
    intro p hp
    rw [h p hp]
    rfl
  have h2 : r.filter (fun p => (isArrayIndex p.1).isNone) = r := by
    rw [List.filter_eq_self]
    intro p hp
    rw [h p hp]
    rfl
  rw [h1, h2]
  rfl

/-! ### Label lemmas -/

theorem validLabel_ne_empty {s : String} (h : validLabel s = true) :
    s ≠ "" := by
  intro he
  subst he
  exact absurd h (by decide)

theorem resolveLabel_some_of_valid {s : String} (h : validLabel s = true) :
    resolveLabel (some s) = s := by
  rw [show resolveLabel (some s) = if s = "" then "default" else s from rfl,
    if_neg (validLabel_ne_empty h)]

/-! ### Elapsed-time formatting -/

/-- The elapsed-time rendering as the specification describes it, for a
(non-negative) duration in milliseconds: whole seconds by floor-dividing by
1000, decomposed into hours, minutes and seconds, rendered as space-joined
segments with the hours segment omitted when zero and the minutes segment
omitted when zero, the seconds segment always present.  Compared against
the source's `formatElapsed` in the refinement theorem below. -/
def formatElapsedSpec (ms : Nat) : String :=
  let totalSeconds := ms / 1000
  let hours := totalSeconds / 3600
  let minutes := totalSeconds % 3600 / 60
  let seconds := totalSeconds % 60
  String.intercalate " "
    ((if hours = 0 then [] else [toString hours ++ "h"])
      ++ (if minutes = 0 then [] else [toString minutes ++ "m"])
      ++ [toString seconds ++ "s"])

theorem toString_natCast_int (n : Nat) :
    toString ((n : Nat) : Int) = toString n := rfl

theorem formatElapsed_natCast (ms : Nat) :
    formatElapsed ((ms : Nat) : Int) = formatElapsedSpec ms := by
  simp only [formatElapsed, formatElapsedSpec]
  rw [show (1000 : Int) = ((1000 : Nat) : Int) from rfl,
    show (3600 : Int) = ((3600 : Nat) : Int) from rfl,
    show (60 : Int) = ((60 : Nat) : Int) from rfl,
    ← Int.ofNat_fdiv, ← Int.ofNat_fdiv, ← Int.ofNat_tmod,
    ← Int.ofNat_fdiv, ← Int.ofNat_tmod]
  simp only [gt_iff_lt, Int.natCast_pos, toString_natCast_int]
  by_cases h1 : ms / 1000 / 3600 = 0 <;>
    by_cases h2 : ms / 1000 % 3600 / 60 = 0 <;>
      simp [h1, h2, Nat.pos_iff_ne_zero]

theorem jsGet_own {r : Registry} {k : String} {v : TimerObj}
    (h : r.lookup k = some v) : jsGet r k = .own v := by
  simp [jsGet, h]

theorem jsDelete_lookup_self (r : Registry) (k : String) :
    (jsDelete r k).lookup k = none :=
  lookup_filter_self r k

theorem jsDelete_lookup_ne {r : Registry} {k a : String} (h : k ≠ a) :
    (jsDelete r a).lookup k = r.lookup k :=
  lookup_filter_of_ne h

theorem jsGet_missing {r : Registry} {k : String} (h1 : r.lookup k = none)
    (h2 : isProtoName k = false) : jsGet r k = .undefVal := by
  simp [jsGet, h1, h2]

theorem mapLines_ok (now : Nat) (l : List (String × TimerObj))
    (h : ∀ p ∈ l, ∃ t, p.2 = TimerObj.mk t) :
    ∃ lines, mapLines now l = .ok lines ∧
      List.Forall₂ (fun (p : String × TimerObj) (s : String) =>
        ∃ t, p.2 = TimerObj.mk t ∧
          s = "- \"" ++ p.1 ++ "\"  started " ++ toLocaleTimeString t
            ++ "  (" ++ formatElapsed ((now : Int) - (t : Int)) ++ ")")
        l lines := by
  induction l with
  | nil => exact ⟨[], rfl, List.Forall₂.nil⟩
  | cons p ps ih =>
    obtain ⟨k, v⟩ := p
    obtain ⟨t, ht⟩ := h (k, v) (List.mem_cons_self _ _)
    have ht' : v = TimerObj.mk t := ht
    subst ht'
    obtain ⟨lines, hml, hf⟩ := ih (fun q hq => h q (List.mem_cons_of_mem _ hq))
    exact ⟨("- \"" ++ k ++ "\"  started " ++ toLocaleTimeString t
        ++ "  (" ++ formatElapsed ((now : Int) - (t : Int)) ++ ")") :: lines,
      by simp [mapLines, listLine, hml],
      List.Forall₂.cons ⟨t, rfl, rfl⟩ hf⟩

/-! ## Claims -/

/-- C1: the claim states that every one of the seven operations, called
with labels matching `^[a-z0-9_-]{1,30}$`, returns a text message and never
raises an exception, in every registry state.  The code violates this:
on the empty registry, `start_timer` with the pattern-valid label
"constructor" finds the truthy inherited `Object.prototype.constructor`,
so the "already running" branch reads `.startTime` of a function —
`undefined` — and calling `.toLocaleTimeString()` on it throws a
`TypeError` instead of returning a message. -/
theorem start_timer_constructor_throws :
    start_timer 0 (some "constructor") ([] : Registry)
      = (.exn .typeError, ([] : Registry)) := by decide

/-- C2 counterexample: the claim says 3600000 ms is formatted as
"1h 0m 0s", but the code omits the minutes segment whenever minutes = 0,
even when an hours segment is present, so `formatElapsed 3600000` is
"1h 0s". -/
theorem formatElapsed_one_hour_ne_claim :
    formatElapsed 3600000 ≠ "1h 0m 0s" := by decide

/-- C2 (amended): the elapsed-time formatting maps 0 ms to "0s", 59000 ms
to "59s", 60000 ms to "1m 0s", 3600000 ms to "1h 0s" (the zero minutes
segment is omitted even below an hours segment), and 3725000 ms to
"1h 2m 5s". -/
theorem formatElapsed_examples :
    formatElapsed 0 = "0s" ∧ formatElapsed 59000 = "59s"
      ∧ formatElapsed 60000 = "1m 0s" ∧ formatElapsed 3600000 = "1h 0s"
      ∧ formatElapsed 3725000 = "1h 2m 5s" :=
  ⟨by decide, by decide, by decide, by decide, by decide⟩

/-- C3: for every duration in milliseconds, `formatElapsed` computes whole
seconds by floor-dividing by 1000, decomposes them into hours, minutes and
seconds, and renders space-joined segments omitting the hours segment when
zero and the minutes segment when zero but always including the seconds
segment (`formatElapsedSpec` is that description verbatim); in particular
0 ms gives "0s", 3661000 ms gives "1h 1m 1s" and 65000 ms gives
"1m 5s". -/
theorem formatElapsed_meets_spec :
    (∀ ms : Nat, formatElapsed ((ms : Nat) : Int) = formatElapsedSpec ms)
      ∧ formatElapsed 0 = "0s" ∧ formatElapsed 3661000 = "1h 1m 1s"
      ∧ formatElapsed 65000 = "1m 5s" :=
  ⟨formatElapsed_natCast, by decide, by decide, by decide⟩

/-- C4 counterexample: the claim says `list_timers` iterates the entries in
insertion order, but `Object.keys` of a plain object enumerates array-index
keys first in ascending numeric order: after `start_timer "b"` (at time 0)
then `start_timer "0"` (at time 1) — both labels pattern-valid — listing at
time 2 renders the line for "0" before the line for "b", not in insertion
order b, "0". -/
theorem list_timers_not_insertion_order :
    list_timers 2 ((start_timer 1 (some "0")
        ((start_timer 0 (some "b") ([] : Registry)).2)).2)
      = (.ret ("Running timers (2):\n- \"0\"  started 1  (0s)"
          ++ "\n- \"b\"  started 0  (0s)"),
         [("b", TimerObj.mk 0), ("0", TimerObj.mk 1)])
      ∧ ("Running timers (2):\n- \"0\"  started 1  (0s)"
          ++ "\n- \"b\"  started 0  (0s)")
        ≠ ("Running timers (2):\n- \"b\"  started 0  (0s)"
          ++ "\n- \"0\"  started 1  (0s)") :=
  ⟨by decide, by decide⟩

/-- C4 (amended): for every well-formed non-empty registry state,
`list_timers` returns one line per timer, iterating the entries in
JavaScript own-property enumeration order — array-index labels in
ascending numeric order first, then the remaining labels in insertion
order, which coincides with insertion order whenever no label is an array
index — with every line's elapsed value computed against the single
shared `now` snapshot, and the registry unchanged afterwards. -/
theorem list_timers_order_spec (r : Registry) (now : Nat)
    (hwf : wf r) (hne : r ≠ []) :
    ∃ lines,
      list_timers now r
        = (.ret ("Running timers (" ++ toString r.length ++ "):\n"
            ++ String.intercalate "\n" lines), r)
      ∧ lines.length = r.length
      ∧ List.Forall₂ (fun (p : String × TimerObj) (s : String) =>
          ∃ t, p.2 = TimerObj.mk t ∧
            s = "- \"" ++ p.1 ++ "\"  started " ++ toLocaleTimeString t
              ++ "  (" ++ formatElapsed ((now : Int) - (t : Int)) ++ ")")
          (orderedEntries r) lines
      ∧ List.Perm (orderedEntries r) r
      ∧ ((∀ p ∈ r, isArrayIndex p.1 = none) → orderedEntries r = r) := by
  have hgood : ∀ p ∈ orderedEntries r, ∃ t, p.2 = TimerObj.mk t := by
    intro p hp
    have hmem : p ∈ r := (orderedEntries_perm r).mem_iff.mp hp
    have hg := hwf.2 p hmem
    obtain ⟨k, v⟩ := p
    cases v with
    | mk t => exact ⟨t, rfl⟩
    | protoFun => simp [goodEntry] at hg
  obtain ⟨lines, hml, hf⟩ := mapLines_ok now (orderedEntries r) hgood
  have h0 : ¬ r.length = 0 := by
    rw [List.length_eq_zero]
    exact hne
  refine ⟨lines, ?_, ?_, hf, orderedEntries_perm r,
    fun h => orderedEntries_eq_self h⟩
  · simp only [list_timers, hml, orderedEntries_length, if_neg h0]
  · exact hf.length_eq.symm.trans (orderedEntries_length r)

/-- C7: for every registry state, whenever `rename_timer` is called with a
target label that already exists as an own key of the registry, the
registry is completely unchanged afterwards (both the `from` entry and the
existing target entry remain with untouched startTimes), and the returned
message is the "already running" rejection when the resolved `from` label
is present, or the "not running" report when it is absent. -/
theorem rename_timer_existing_target_unchanged (r : Registry)
    (fromLabel : Option String) (toLabel : String)
    (h : toLabel ∈ r.map Prod.fst) :
    (rename_timer fromLabel toLabel r).2 = r
    ∧ (truthy (jsGet r (resolveLabel fromLabel)) = true →
        (rename_timer fromLabel toLabel r).1
          = .ret ("A timer named \"" ++ toLabel
            ++ "\" is already running. Stop it first or choose a different name."))
    ∧ (truthy (jsGet r (resolveLabel fromLabel)) = false →
        (rename_timer fromLabel toLabel r).1
          = .ret ("No timer named \"" ++ resolveLabel fromLabel
            ++ "\" is running.")) := by
  have hto : truthy (jsGet r toLabel) = true := by
    unfold jsGet
    cases hl : r.lookup toLabel
    · rw [lookup_eq_none_iff] at hl
      exact absurd h hl
    · rfl
  cases hf : truthy (jsGet r (resolveLabel fromLabel))
  · refine ⟨?_, ?_, ?_⟩ <;> simp [rename_timer, hf]
  · refine ⟨?_, ?_, ?_⟩ <;> simp [rename_timer, hf, hto]

/-- Witness for C7's theorem: registry with "a" (started 0) and "b"
(started 1), renaming "a" to the existing target "b". -/
theorem rename_timer_existing_target_witness :
    ("b" ∈ ([("a", TimerObj.mk 0), ("b", TimerObj.mk 1)] : Registry).map
        Prod.fst)
    ∧ ((rename_timer (some "a") "b"
          [("a", TimerObj.mk 0), ("b", TimerObj.mk 1)]).2
        = [("a", TimerObj.mk 0), ("b", TimerObj.mk 1)]
      ∧ (truthy (jsGet [("a", TimerObj.mk 0), ("b", TimerObj.mk 1)]
            (resolveLabel (some "a"))) = true →
          (rename_timer (some "a") "b"
              [("a", TimerObj.mk 0), ("b", TimerObj.mk 1)]).1
            = .ret ("A timer named \"" ++ "b"
              ++ "\" is already running. Stop it first or choose a different name."))
      ∧ (truthy (jsGet [("a", TimerObj.mk 0), ("b", TimerObj.mk 1)]
            (resolveLabel (some "a"))) = false →
          (rename_timer (some "a") "b"
              [("a", TimerObj.mk 0), ("b", TimerObj.mk 1)]).1
            = .ret ("No timer named \"" ++ resolveLabel (some "a")
              ++ "\" is running."))) :=
  ⟨by decide,
    rename_timer_existing_target_unchanged
      [("a", TimerObj.mk 0), ("b", TimerObj.mk 1)] (some "a") "b" (by decide)⟩

/-- C8 counterexample: for the pattern-valid label "constructor", calling
`start_timer` twice in a row from the empty registry does not leave one
entry with the first call's startTime: both calls throw a `TypeError`
(the truthy inherited `Object.prototype.constructor` is mistaken for a
running timer) and the registry stays empty — zero entries for the label,
and the second call returns no message at all. -/
theorem start_timer_twice_constructor :
    start_timer 1 (some "constructor") ([] : Registry)
      = (.exn .typeError, ([] : Registry))
    ∧ start_timer 2 (some "constructor")
        (start_timer 1 (some "constructor") ([] : Registry)).2
      = (.exn .typeError, ([] : Registry))
    ∧ (((start_timer 2 (some "constructor")
          (start_timer 1 (some "constructor") ([] : Registry)).2).2).map
        Prod.fst).count "constructor" = 0 :=
  ⟨by decide, by decide, by decide⟩

/-- C8 (amended): for every pattern-valid label L other than the two
inherited prototype names "constructor" and "__proto__", and every registry
state not containing L, calling `start_timer L` twice in a row leaves
exactly one entry for L whose startTime is the first call's timestamp; the
second call performs no mutation and returns an "already running" message
that includes the existing start time. -/
theorem start_timer_idempotent_rejection (r : Registry) (now1 now2 : Nat)
    (L : String) (hv : validLabel L = true) (hp : isProtoName L = false)
    (hr : r.lookup L = none) :
    (start_timer now1 (some L) r).2 = r ++ [(L, TimerObj.mk now1)]
    ∧ start_timer now2 (some L) (r ++ [(L, TimerObj.mk now1)])
        = (.ret ("Timer \"" ++ L ++ "\" is already running (started at "
            ++ toLocaleTimeString now1 ++ ")."), r ++ [(L, TimerObj.mk now1)])
    ∧ ((r ++ [(L, TimerObj.mk now1)]).map Prod.fst).count L = 1
    ∧ (r ++ [(L, TimerObj.mk now1)]).lookup L = some (TimerObj.mk now1)
    ∧ ∃ a b, ("Timer \"" ++ L ++ "\" is already running (started at "
          ++ toLocaleTimeString now1 ++ ").")
        = a ++ toLocaleTimeString now1 ++ b := by
  have hres : resolveLabel (some L) = L := resolveLabel_some_of_valid hv
  have hget : jsGet r L = .undefVal := jsGet_missing hr hp
  have hset : jsSet r L (TimerObj.mk now1) = r ++ [(L, TimerObj.mk now1)] := by
    unfold jsSet
    rw [hr]
    rfl
  have hlk2 : (r ++ [(L, TimerObj.mk now1)]).lookup L
      = some (TimerObj.mk now1) := by
    rw [lookup_append_left_none hr, lookup_singleton_self]
  refine ⟨?_, ?_, ?_, hlk2, ?_⟩
  · simp only [start_timer, hres, hget, truthy, hset]
    by_cases h3 : runningCount (r ++ [(L, TimerObj.mk now1)]) ≥ 3 <;>
      simp [h3]
  · simp [start_timer, hres, jsGet_own hlk2, truthy, startTimeOf]
  · rw [List.map_append]
    rw [List.count_append]
    have hz : ((r.map Prod.fst).count L) = 0 := by
      rw [List.count_eq_zero]
      rw [lookup_eq_none_iff] at hr
      exact hr
    simp [hz]
  · exact ⟨"Timer \"" ++ L ++ "\" is already running (started at ", ").",
      by simp [String.append_assoc]⟩

/-- Witness for C8's theorem: label "x" started twice (at 4 then 9) from
the empty registry. -/
theorem start_timer_idempotent_rejection_witness :
    validLabel "x" = true ∧ isProtoName "x" = false
    ∧ ([] : Registry).lookup "x" = none
    ∧ ((start_timer 4 (some "x") ([] : Registry)).2
        = [] ++ [("x", TimerObj.mk 4)]
      ∧ start_timer 9 (some "x") ([] ++ [("x", TimerObj.mk 4)])
          = (.ret ("Timer \"" ++ "x" ++ "\" is already running (started at "
              ++ toLocaleTimeString 4 ++ ")."), [] ++ [("x", TimerObj.mk 4)])
      ∧ ((([] ++ [("x", TimerObj.mk 4)] : Registry)).map Prod.fst).count "x"
          = 1
      ∧ (([] ++ [("x", TimerObj.mk 4)] : Registry)).lookup "x"
          = some (TimerObj.mk 4)
      ∧ ∃ a b, ("Timer \"" ++ "x" ++ "\" is already running (started at "
            ++ toLocaleTimeString 4 ++ ").")
          = a ++ toLocaleTimeString 4 ++ b) :=
  ⟨by decide, by decide, by decide,
    start_timer_idempotent_rejection [] 4 9 "x" (by decide) (by decide)
      (by decide)⟩

/-- C9: for every call to `start_timer` that inserts a new entry (the
label's lookup is `undefined`), the entry is appended with the call's
timestamp; if the registry size after insertion is at least 3, the returned
message additionally carries the warning listing all currently running
labels (`objKeys` of the new registry — a permutation of all its keys), and
if the size is below 3 no warning is appended.  The witness instantiates
the concrete scenario: starting "c" third after "a" and "b" triggers the
warning listing "a", "b", "c". -/
theorem start_timer_warning_threshold (r : Registry) (now : Nat)
    (label : Option String)
    (h : jsGet r (resolveLabel label) = .undefVal) :
    start_timer now label r
      = ((if r.length + 1 ≥ 3 then
            JsOutcome.ret ("Timer \"" ++ resolveLabel label
              ++ "\" started at " ++ toLocaleTimeString now ++ "."
              ++ "\n\nHeads up: you now have " ++ toString (r.length + 1)
              ++ " timers running ("
              ++ String.intercalate ", "
                ((objKeys (r ++ [(resolveLabel label, TimerObj.mk now)])).map
                  (fun n => "\"" ++ n ++ "\""))
              ++ "). Did you forget to stop one?")
          else
            JsOutcome.ret ("Timer \"" ++ resolveLabel label
              ++ "\" started at " ++ toLocaleTimeString now ++ ".")),
         r ++ [(resolveLabel label, TimerObj.mk now)])
    ∧ List.Perm (objKeys (r ++ [(resolveLabel label, TimerObj.mk now)]))
        ((r ++ [(resolveLabel label, TimerObj.mk now)]).map Prod.fst) := by
  have hlk : r.lookup (resolveLabel label) = none := by
    unfold jsGet at h
    cases hl : r.lookup (resolveLabel label)
    · rfl
    · rw [hl] at h
      cases h
  have hset : jsSet r (resolveLabel label) (TimerObj.mk now)
      = r ++ [(resolveLabel label, TimerObj.mk now)] := by
    unfold jsSet
    rw [hlk]
    rfl
  refine ⟨?_, objKeys_perm_keys _⟩
  by_cases hc : 2 ≤ r.length <;>
    simp [start_timer, h, truthy, hset, runningCount_eq, hc]

/-- Witness for C9's theorem: the third start ("c" at time 3 with "a" and
"b" already running) appends the warning. -/
theorem start_timer_warning_threshold_witness :
    jsGet [("a", TimerObj.mk 1), ("b", TimerObj.mk 2)]
        (resolveLabel (some "c")) = .undefVal
    ∧ (start_timer 3 (some "c") [("a", TimerObj.mk 1), ("b", TimerObj.mk 2)]
        = ((if ([("a", TimerObj.mk 1), ("b", TimerObj.mk 2)] : Registry).length
              + 1 ≥ 3 then
              JsOutcome.ret ("Timer \"" ++ resolveLabel (some "c")
                ++ "\" started at " ++ toLocaleTimeString 3 ++ "."
                ++ "\n\nHeads up: you now have "
                ++ toString (([("a", TimerObj.mk 1), ("b", TimerObj.mk 2)] :
                      Registry).length + 1)
                ++ " timers running ("
                ++ String.intercalate ", "
                  ((objKeys ([("a", TimerObj.mk 1), ("b", TimerObj.mk 2)]
                      ++ [(resolveLabel (some "c"), TimerObj.mk 3)])).map
                    (fun n => "\"" ++ n ++ "\""))
                ++ "). Did you forget to stop one?")
            else
              JsOutcome.ret ("Timer \"" ++ resolveLabel (some "c")
                ++ "\" started at " ++ toLocaleTimeString 3 ++ ".")),
           [("a", TimerObj.mk 1), ("b", TimerObj.mk 2)]
             ++ [(resolveLabel (some "c"), TimerObj.mk 3)])
      ∧ List.Perm (objKeys ([("a", TimerObj.mk 1), ("b", TimerObj.mk 2)]
            ++ [(resolveLabel (some "c"), TimerObj.mk 3)]))
          (([("a", TimerObj.mk 1), ("b", TimerObj.mk 2)]
            ++ [(resolveLabel (some "c"), TimerObj.mk 3)]).map Prod.fst)) :=
  ⟨by decide,
    start_timer_warning_threshold [("a", TimerObj.mk 1), ("b", TimerObj.mk 2)]
      3 (some "c") (by decide)⟩

/-- Witness for C4's theorem at the concrete registry holding one timer
"a" started at 1, listed at time 2. -/
theorem list_timers_order_spec_witness :
    wf [("a", TimerObj.mk 1)] ∧ ([("a", TimerObj.mk 1)] : Registry) ≠ []
      ∧ ∃ lines,
        list_timers 2 [("a", TimerObj.mk 1)]
          = (.ret ("Running timers ("
              ++ toString ([("a", TimerObj.mk 1)] : Registry).length ++ "):\n"
              ++ String.intercalate "\n" lines), [("a", TimerObj.mk 1)])
        ∧ lines.length = ([("a", TimerObj.mk 1)] : Registry).length
        ∧ List.Forall₂ (fun (p : String × TimerObj) (s : String) =>
            ∃ t, p.2 = TimerObj.mk t ∧
              s = "- \"" ++ p.1 ++ "\"  started " ++ toLocaleTimeString t
                ++ "  (" ++ formatElapsed ((2 : Int) - (t : Int)) ++ ")")
            (orderedEntries [("a", TimerObj.mk 1)]) lines
        ∧ List.Perm (orderedEntries [("a", TimerObj.mk 1)])
            [("a", TimerObj.mk 1)]
        ∧ ((∀ p ∈ ([("a", TimerObj.mk 1)] : Registry),
              isArrayIndex p.1 = none)
            → orderedEntries [("a", TimerObj.mk 1)] = [("a", TimerObj.mk 1)]) :=
  ⟨by decide, by decide,
    list_timers_order_spec [("a", TimerObj.mk 1)] 2 (by decide) (by decide)⟩

/-- C5 counterexample: the claim quantifies over every running label L1 and
every label L2 that is not running.  For L1 = "a" (running, started 0) and
the pattern-valid, not-running label L2 = "constructor", the switch at
time 5 stops "a" but then mistakes the truthy inherited
`Object.prototype.constructor` for a running timer and throws a
`TypeError`; afterwards L2 is not present with the call's timestamp (the
registry is empty). -/
theorem switch_timer_constructor_not_started :
    switch_timer 5 (some "a") "constructor" [("a", TimerObj.mk 0)]
      = (.exn .typeError, ([] : Registry))
    ∧ ([] : Registry).lookup "constructor" = none :=
  ⟨by decide, by decide⟩

/-- C5 (amended): for every running label L1 and every pattern-valid label
L2 that is not running and is not one of the two inherited prototype names
"constructor"/"__proto__", `switch_timer(stop=L1, start=L2)` captures a
single `now`, uses it both for L1's elapsed computation (in the returned
message) and as L2's start time, and afterwards L1 is absent from the
registry and L2 is present with startTime equal to that single
timestamp. -/
theorem switch_timer_fresh_start (r : Registry) (now : Nat)
    (L1 L2 : String) (t : Nat)
    (hv1 : validLabel L1 = true)
    (h1 : r.lookup L1 = some (TimerObj.mk t))
    (h2 : r.lookup L2 = none)
    (hp2 : isProtoName L2 = false) :
    switch_timer now (some L1) L2 r
      = (.ret ("Stopped \"" ++ L1 ++ "\" ("
          ++ formatElapsed ((now : Int) - (t : Int)) ++ ").\n"
          ++ "Started \"" ++ L2 ++ "\" at " ++ toLocaleTimeString now ++ "."),
         jsDelete r L1 ++ [(L2, TimerObj.mk now)])
    ∧ (jsDelete r L1 ++ [(L2, TimerObj.mk now)]).lookup L1 = none
    ∧ (jsDelete r L1 ++ [(L2, TimerObj.mk now)]).lookup L2
        = some (TimerObj.mk now) := by
  have hres := resolveLabel_some_of_valid hv1
  have hne : L1 ≠ L2 := by
    intro he
    rw [he, h2] at h1
    cases h1
  have hd2 : (jsDelete r L1).lookup L2 = none := by
    rw [jsDelete_lookup_ne (Ne.symm hne)]
    exact h2
  have hget1 : jsGet r L1 = .own (TimerObj.mk t) := jsGet_own h1
  have hget2 : jsGet (jsDelete r L1) L2 = .undefVal := jsGet_missing hd2 hp2
  have hset : jsSet (jsDelete r L1) L2 (TimerObj.mk now)
      = jsDelete r L1 ++ [(L2, TimerObj.mk now)] := by
    unfold jsSet
    rw [hd2]
    rfl
  refine ⟨?_, ?_, ?_⟩
  · simp [switch_timer, hres, hget1, truthy, startTimeOf, formatElapsedJs,
      hget2, hset]
  · rw [lookup_append_left_none (jsDelete_lookup_self r L1),
      lookup_singleton_ne _ hne]
  · rw [lookup_append_left_none hd2, lookup_singleton_self]

/-- Witness for C5's theorem: switch from "a" (running since 0) to the
fresh label "x" at time 5. -/
theorem switch_timer_fresh_start_witness :
    validLabel "a" = true
    ∧ ([("a", TimerObj.mk 0)] : Registry).lookup "a" = some (TimerObj.mk 0)
    ∧ ([("a", TimerObj.mk 0)] : Registry).lookup "x" = none
    ∧ isProtoName "x" = false
    ∧ (switch_timer 5 (some "a") "x" [("a", TimerObj.mk 0)]
        = (.ret ("Stopped \"" ++ "a" ++ "\" ("
            ++ formatElapsed (((5 : Nat) : Int) - ((0 : Nat) : Int)) ++ ").\n"
            ++ "Started \"" ++ "x" ++ "\" at " ++ toLocaleTimeString 5 ++ "."),
           jsDelete [("a", TimerObj.mk 0)] "a" ++ [("x", TimerObj.mk 5)])
      ∧ (jsDelete [("a", TimerObj.mk 0)] "a"
          ++ [("x", TimerObj.mk 5)]).lookup "a" = none
      ∧ (jsDelete [("a", TimerObj.mk 0)] "a"
          ++ [("x", TimerObj.mk 5)]).lookup "x" = some (TimerObj.mk 5)) :=
  ⟨by decide, by decide, by decide, by decide,
    switch_timer_fresh_start [("a", TimerObj.mk 0)] 5 "a" "x" 0 (by decide)
      (by decide) (by decide) (by decide)⟩

/-- C6 counterexample: the claim quantifies over every running label L1 and
every valid label L2 not in the registry.  For L1 = "a" (running, started
0) and L2 = "constructor" (pattern-valid, not in the registry), the rename
is wrongly rejected — `timers["constructor"]` finds the truthy inherited
`Object.prototype.constructor` — so nothing moves: `current_timer("a")`
afterwards still reports the timer as running rather than "not
running". -/
theorem rename_timer_constructor_rejected :
    rename_timer (some "a") "constructor" [("a", TimerObj.mk 0)]
      = (.ret ("A timer named \"constructor\" is already running."
          ++ " Stop it first or choose a different name."),
         [("a", TimerObj.mk 0)])
    ∧ (current_timer 7 (some "a") [("a", TimerObj.mk 0)]).1
        ≠ .ret ("No timer named \"a\" is running.") :=
  ⟨by decide, by decide⟩

/-- C6 (amended): for every running label L1 (pattern-valid and not an
inherited prototype name, as the boundary guarantees for every created
key) and every pattern-valid label L2 not in the registry and not one of
the two inherited prototype names "constructor"/"__proto__",
`rename_timer(from=L1, to=L2)` moves the entry from key L1 to key L2
preserving its startTime and removing the old key, so that afterwards
`current_timer(L1)` reports "not running" and `current_timer(L2)` reports
the startTime L1 had. -/
theorem rename_timer_moves_entry (r : Registry) (now : Nat)
    (L1 L2 : String) (t : Nat)
    (hv1 : validLabel L1 = true) (hp1 : isProtoName L1 = false)
    (h1 : r.lookup L1 = some (TimerObj.mk t))
    (h2 : r.lookup L2 = none)
    (hv2 : validLabel L2 = true) (hp2 : isProtoName L2 = false) :
    rename_timer (some L1) L2 r
      = (.ret ("Timer renamed from \"" ++ L1 ++ "\" to \"" ++ L2 ++ "\"."),
         jsDelete (jsSet r L2 (TimerObj.mk t)) L1)
    ∧ (current_timer now (some L1)
          (jsDelete (jsSet r L2 (TimerObj.mk t)) L1)).1
        = .ret ("No timer named \"" ++ L1 ++ "\" is running.")
    ∧ (current_timer now (some L2)
          (jsDelete (jsSet r L2 (TimerObj.mk t)) L1)).1
        = .ret ("Timer \"" ++ L2 ++ "\" is running.\nStarted:  "
            ++ toLocaleTimeString t ++ "\nElapsed:  "
            ++ formatElapsed ((now : Int) - (t : Int)))
    ∧ (jsDelete (jsSet r L2 (TimerObj.mk t)) L1).lookup L1 = none
    ∧ (jsDelete (jsSet r L2 (TimerObj.mk t)) L1).lookup L2
        = some (TimerObj.mk t) := by
  have hres1 := resolveLabel_some_of_valid hv1
  have hres2 := resolveLabel_some_of_valid hv2
  have hne : L1 ≠ L2 := by
    intro he
    rw [he, h2] at h1
    cases h1
  have hget1 : jsGet r L1 = .own (TimerObj.mk t) := jsGet_own h1
  have hgetTo : jsGet r L2 = .undefVal := jsGet_missing h2 hp2
  have hset : jsSet r L2 (TimerObj.mk t) = r ++ [(L2, TimerObj.mk t)] := by
    unfold jsSet
    rw [h2]
    rfl
  have hlkL2 : (jsDelete (jsSet r L2 (TimerObj.mk t)) L1).lookup L2
      = some (TimerObj.mk t) := by
    rw [jsDelete_lookup_ne (Ne.symm hne), hset,
      lookup_append_left_none h2, lookup_singleton_self]
  have hlkL1 : (jsDelete (jsSet r L2 (TimerObj.mk t)) L1).lookup L1 = none :=
    jsDelete_lookup_self _ L1
  refine ⟨?_, ?_, ?_, hlkL1, hlkL2⟩
  · simp [rename_timer, hres1, hget1, hgetTo, truthy]
  · simp [current_timer, hres1, jsGet_missing hlkL1 hp1, truthy]
  · simp [current_timer, hres2, jsGet_own hlkL2, truthy, startTimeOf]

/-- Witness for C6's theorem: rename "a" (running since 0) to the fresh
label "b", then query both at time 7. -/
theorem rename_timer_moves_entry_witness :
    validLabel "a" = true ∧ isProtoName "a" = false
    ∧ ([("a", TimerObj.mk 0)] : Registry).lookup "a" = some (TimerObj.mk 0)
    ∧ ([("a", TimerObj.mk 0)] : Registry).lookup "b" = none
    ∧ validLabel "b" = true ∧ isProtoName "b" = false
    ∧ (rename_timer (some "a") "b" [("a", TimerObj.mk 0)]
        = (.ret ("Timer renamed from \"" ++ "a" ++ "\" to \"" ++ "b" ++ "\"."),
           jsDelete (jsSet [("a", TimerObj.mk 0)] "b" (TimerObj.mk 0)) "a")
      ∧ (current_timer 7 (some "a")
            (jsDelete (jsSet [("a", TimerObj.mk 0)] "b" (TimerObj.mk 0)) "a")).1
          = .ret ("No timer named \"" ++ "a" ++ "\" is running.")
      ∧ (current_timer 7 (some "b")
            (jsDelete (jsSet [("a", TimerObj.mk 0)] "b" (TimerObj.mk 0)) "a")).1
          = .ret ("Timer \"" ++ "b" ++ "\" is running.\nStarted:  "
              ++ toLocaleTimeString 0 ++ "\nElapsed:  "
              ++ formatElapsed (((7 : Nat) : Int) - ((0 : Nat) : Int)))
      ∧ (jsDelete (jsSet [("a", TimerObj.mk 0)] "b" (TimerObj.mk 0))
            "a").lookup "a" = none
      ∧ (jsDelete (jsSet [("a", TimerObj.mk 0)] "b" (TimerObj.mk 0))
            "a").lookup "b" = some (TimerObj.mk 0)) :=
  ⟨by decide, by decide, by decide, by decide, by decide, by decide,
    rename_timer_moves_entry [("a", TimerObj.mk 0)] 7 "a" "b" 0 (by decide)
      (by decide) (by decide) (by decide) (by decide) (by decide)⟩

/-- C10: for every label L currently running (with, as the boundary
guarantees for every created key, L pattern-valid and not an inherited
prototype name), `switch_timer(stop=L, start=L)` first removes L —
reporting its elapsed time computed from the single captured `now` — and
then re-inserts L with that same `now` as its new startTime: switching to
the same label restarts the timer at the call's timestamp instead of
rejecting it as already running. -/
theorem switch_timer_same_label_restarts (r : Registry) (now : Nat)
    (L : String) (t : Nat) (hv : validLabel L = true)
    (hp : isProtoName L = false)
    (h : r.lookup L = some (TimerObj.mk t)) :
    switch_timer now (some L) L r
      = (.ret ("Stopped \"" ++ L ++ "\" ("
          ++ formatElapsed ((now : Int) - (t : Int)) ++ ").\n"
          ++ "Started \"" ++ L ++ "\" at " ++ toLocaleTimeString now ++ "."),
         jsDelete r L ++ [(L, TimerObj.mk now)])
    ∧ (jsDelete r L ++ [(L, TimerObj.mk now)]).lookup L
        = some (TimerObj.mk now) := by
  have hres := resolveLabel_some_of_valid hv
  have hget1 : jsGet r L = .own (TimerObj.mk t) := jsGet_own h
  have hd : (jsDelete r L).lookup L = none := jsDelete_lookup_self r L
  have hget2 : jsGet (jsDelete r L) L = .undefVal := jsGet_missing hd hp
  have hset : jsSet (jsDelete r L) L (TimerObj.mk now)
      = jsDelete r L ++ [(L, TimerObj.mk now)] := by
    unfold jsSet
    rw [hd]
    rfl
  refine ⟨?_, ?_⟩
  · simp [switch_timer, hres, hget1, truthy, startTimeOf, formatElapsedJs,
      hget2, hset]
  · rw [lookup_append_left_none hd, lookup_singleton_self]

/-- Witness for C10's theorem: "a" running since 2, switched to itself at
time 9. -/
theorem switch_timer_same_label_restarts_witness :
    validLabel "a" = true ∧ isProtoName "a" = false
    ∧ ([("a", TimerObj.mk 2)] : Registry).lookup "a" = some (TimerObj.mk 2)
    ∧ (switch_timer 9 (some "a") "a" [("a", TimerObj.mk 2)]
        = (.ret ("Stopped \"" ++ "a" ++ "\" ("
            ++ formatElapsed (((9 : Nat) : Int) - ((2 : Nat) : Int)) ++ ").\n"
            ++ "Started \"" ++ "a" ++ "\" at " ++ toLocaleTimeString 9 ++ "."),
           jsDelete [("a", TimerObj.mk 2)] "a" ++ [("a", TimerObj.mk 9)])
      ∧ (jsDelete [("a", TimerObj.mk 2)] "a"
          ++ [("a", TimerObj.mk 9)]).lookup "a" = some (TimerObj.mk 9)) :=
  ⟨by decide, by decide, by decide,
    switch_timer_same_label_restarts [("a", TimerObj.mk 2)] 9 "a" 2
      (by decide) (by decide) (by decide)⟩

end WorkTimer
